import Mathlib

namespace Qrobot

/-! Shallow embedding of the Qrobot repository (src/tools.ts, src/agent.ts,
src/types.ts, src/context.ts).  Character-level utilities model the JavaScript
string primitives used by the source. -/

def isDigit09 (c : Char) : Bool := decide ('0' ≤ c) && decide (c ≤ '9')

def isUpperAZ (c : Char) : Bool := decide ('A' ≤ c) && decide (c ≤ 'Z')

def isWordChar (c : Char) : Bool :=
  (decide ('a' ≤ c) && decide (c ≤ 'z')) || (decide ('A' ≤ c) && decide (c ≤ 'Z')) ||
    isDigit09 c || c = '_'

def jsIsSpace (c : Char) : Bool :=
  c = ' ' || c = '\t' || c = '\n' || c = '\r' || c = '\x0b' || c = '\x0c' || c = ' '

/-- Model of the JavaScript String.prototype.trim used on inputs. -/
def trimChars (l : List Char) : List Char :=
  ((l.dropWhile jsIsSpace).reverse.dropWhile jsIsSpace).reverse

def jsTrim (s : String) : String := ⟨trimChars s.data⟩

/-- Value of a list of decimal digit characters, as JavaScript parseInt reads them. -/
def digitsToNat (l : List Char) : Nat := l.foldl (fun a c => a * 10 + (c.toNat - '0'.toNat)) 0

/-- Model of JavaScript String.prototype.padStart. -/
def jsPadStart (s : String) (n : Nat) (c : Char) : String :=
  if n ≤ s.data.length then s else ⟨List.replicate (n - s.data.length) c ++ s.data⟩

/-- Model of JavaScript String.prototype.slice with a negative index: the last n characters. -/
def sliceLast (s : String) (n : Nat) : String := ⟨s.data.drop (s.data.length - n)⟩

/-- Does the second list start with the first (models the LIKE query with a trailing wildcard
and String.prototype.startsWith). -/
def listStarts : List Char → List Char → Bool
  | [], _ => true
  | _ :: _, [] => false
  | p :: ps, c :: cs => p = c && listStarts ps cs

/-- Bytewise lexicographic comparison on strings, modelling ORDER BY folio on the store. -/
def lexLtChars : List Char → List Char → Bool
  | [], [] => false
  | [], _ :: _ => true
  | _ :: _, [] => false
  | a :: as, b :: bs =>
      if a.toNat < b.toNat then true
      else if b.toNat < a.toNat then false
      else lexLtChars as bs

/-- The lexicographically greatest string of a list (ORDER BY folio DESC LIMIT 1). -/
def lexMax? (l : List String) : Option String :=
  l.foldl
    (fun acc s =>
      match acc with
      | none => some s
      | some m => if lexLtChars m.data s.data then some s else some m)
    none

-- ============================================
-- types.ts: TicketType and the enum maps of tools.ts
-- ============================================

inductive TicketType
  | fuga | aclaraciones | pagos | lecturas | revision_recibo | recibo_digital | urgente
  | atencion_ciudadana | transporte | educacion | vehicular | psicologia | atencion_mujeres
  | cultura | registro_publico | conciliacion_laboral | vivienda | appqro
  | programas_sociales | general
deriving DecidableEq

def TICKET_CODES : TicketType → String
  | .fuga => "FUG"
  | .aclaraciones => "ACL"
  | .pagos => "PAG"
  | .lecturas => "LEC"
  | .revision_recibo => "REV"
  | .recibo_digital => "DIG"
  | .urgente => "URG"
  | .atencion_ciudadana => "ATC"
  | .transporte => "TRA"
  | .educacion => "EDU"
  | .vehicular => "VEH"
  | .psicologia => "PSI"
  | .atencion_mujeres => "MUJ"
  | .cultura => "CUL"
  | .registro_publico => "RPP"
  | .conciliacion_laboral => "CCL"
  | .vivienda => "VIV"
  | .appqro => "APP"
  | .programas_sociales => "SOC"
  | .general => "GEN"

def SERVICE_TYPE_MAP : TicketType → String
  | .fuga => "leak_report"
  | .aclaraciones => "clarifications"
  | .pagos => "payment"
  | .lecturas => "report_reading"
  | .revision_recibo => "receipt_review"
  | .recibo_digital => "digital_receipt"
  | .urgente => "human_agent"
  | _ => "general"

inductive TicketPriority
  | urgente | alta | media | baja
deriving DecidableEq

def PRIORITY_MAP : TicketPriority → String
  | .baja => "low"
  | .media => "medium"
  | .alta => "high"
  | .urgente => "urgent"

-- ============================================
-- tools.ts: folio generation
-- ============================================

/-- The local (Mexico City) calendar date at creation time, as produced by getMexicoDate;
the source reads year, month (1-12 after the +1 adjustment) and day from the Date object. -/
structure MexDate where
  year : Nat
  month : Nat
  day : Nat

def pad2 (n : Nat) : String := jsPadStart (Nat.repr n) 2 '0'

/-- The YYYYMMDD string built identically in generateTicketFolio and
generateTicketFolioFromPG. -/
def dateStr (d : MexDate) : String := Nat.repr d.year ++ pad2 d.month ++ pad2 d.day

def folioDatePfx (t : TicketType) (d : MexDate) : String := TICKET_CODES t ++ "-" ++ dateStr d

/-- Model of the regex match of lastFolio against a dash followed by exactly four final
digits, returning the parsed captured group. -/
def parseTrailing4 (s : String) : Option Nat :=
  let l := s.data
  if 5 ≤ l.length then
    let tail4 := l.drop (l.length - 4)
    if (decide (l[l.length - 5]? = some '-')) && tail4.all isDigit09 then
      some (digitsToNat tail4)
    else none
  else none

/-- The next sequence number computed by generateTicketFolioFromPG from the store rows
matching the type+date LIKE pattern. -/
def nextFolioSeq (store : List String) (pfx : String) : Nat :=
  match lexMax? (store.filter (fun f => listStarts (pfx ++ "-").data f.data)) with
  | some lastFolio =>
      match parseTrailing4 lastFolio with
      | some k => k + 1
      | none => 1
  | none => 1

/-- generateTicketFolioFromPG, normal (store-backed) path: the store query succeeded and
returned the folios of the tickets table. -/
def generateTicketFolioFromPG (t : TicketType) (d : MexDate) (store : List String) : String :=
  let pfx := folioDatePfx t d
  pfx ++ "-" ++ jsPadStart (Nat.repr (nextFolioSeq store pfx)) 4 '0'

/-- generateTicketFolio: the synchronous local fallback, suffixed with the last four
characters of the current epoch-milliseconds timestamp. -/
def generateTicketFolio (t : TicketType) (d : MexDate) (nowMs : Nat) : String :=
  folioDatePfx t d ++ "-" ++ sliceLast (Nat.repr nowMs) 4

/-- generateTicketFolioFromPG including its internal catch: when the store query fails it
falls back to the timestamp suffix, mirroring generateTicketFolio. -/
def generateTicketFolioFromPGFull (t : TicketType) (d : MexDate) (queryOk : Bool)
    (store : List String) (nowMs : Nat) : String :=
  if queryOk then generateTicketFolioFromPG t d store
  else folioDatePfx t d ++ "-" ++ sliceLast (Nat.repr nowMs) 4

/-- The folio pattern of the claim: three capital letters, dash, eight digits, dash,
four digits, anchored at both ends. -/
def matchesFolioPattern (s : String) : Bool :=
  let l := s.data
  decide (l.length = 17) && (l.take 3).all isUpperAZ && decide (l[3]? = some '-') &&
    ((l.drop 4).take 8).all isDigit09 && decide (l[12]? = some '-') &&
    (l.drop 13).all isDigit09

-- Facts about the decimal representation Nat.repr, which models the JavaScript
-- String(n) conversion used when building folios.

theorem digitChar_isDigit09 (m : Nat) (h : m < 10) : isDigit09 (Nat.digitChar m) = true := by
  interval_cases m <;> decide

theorem toDigitsCore_all_digits :
    ∀ (fuel n : Nat) (ds : List Char), ds.all isDigit09 = true →
      (Nat.toDigitsCore 10 fuel n ds).all isDigit09 = true := by
  intro fuel
  induction fuel with
  | zero => intro n ds h; simpa [Nat.toDigitsCore] using h
  | succ f ih =>
      intro n ds h
      have hd : isDigit09 (Nat.digitChar (n % 10)) = true :=
        digitChar_isDigit09 _ (Nat.mod_lt _ (by norm_num))
      by_cases h0 : n / 10 = 0
      · simp [Nat.toDigitsCore, h0, List.all_cons, hd, h]
      · simp only [Nat.toDigitsCore, h0, if_false]
        exact ih _ _ (by simp [List.all_cons, hd, h])

theorem toDigitsCore_length_eq :
    ∀ (fuel n : Nat) (ds : List Char), 0 < fuel → n < 10 ^ fuel →
      (Nat.toDigitsCore 10 fuel n ds).length = ds.length + Nat.log 10 n + 1 := by
  intro fuel
  induction fuel with
  | zero => intro n ds h; omega
  | succ f ih =>
      intro n ds _ hn
      have hdm := Nat.div_add_mod n 10
      have hm : n % 10 < 10 := Nat.mod_lt _ (by norm_num)
      by_cases h0 : n / 10 = 0
      · have hn10 : n < 10 := by omega
        have hlog : Nat.log 10 n = 0 := Nat.log_eq_zero_iff.mpr (Or.inl hn10)
        simp [Nat.toDigitsCore, h0, hlog]
      · have hge : 10 ≤ n := by
          rcases Nat.eq_zero_or_pos (n / 10) with hq | hq
          · exact absurd hq h0
          · omega
        have hf : 0 < f := by
          rcases Nat.eq_zero_or_pos f with hf0 | hf0
          · subst hf0; simp at hn; omega
          · exact hf0
        have hlt : n / 10 < 10 ^ f := by
          rw [pow_succ] at hn
          by_contra hc
          push_neg at hc
          have : 10 ^ f * 10 ≤ (n / 10) * 10 := Nat.mul_le_mul_right 10 hc
          omega
        have hrec := ih (n / 10) (Nat.digitChar (n % 10) :: ds) hf hlt
        have hlog : Nat.log 10 n = Nat.log 10 (n / 10) + 1 := by
          have h1 : 0 < Nat.log 10 n := Nat.log_pos (by norm_num) hge
          have h2 : Nat.log 10 (n / 10) = Nat.log 10 n - 1 := Nat.log_div_base 10 n
          omega
        simp only [Nat.toDigitsCore, h0, if_false]
        rw [hrec, hlog]
        simp [List.length_cons]
        omega

theorem repr_data_eq (n : Nat) : (Nat.repr n).data = Nat.toDigitsCore 10 (n + 1) n [] := rfl

theorem repr_data_all_digits (n : Nat) : (Nat.repr n).data.all isDigit09 = true := by
  rw [repr_data_eq]
  exact toDigitsCore_all_digits (n + 1) n [] rfl

theorem repr_data_length (n : Nat) : (Nat.repr n).data.length = Nat.log 10 n + 1 := by
  rw [repr_data_eq]
  have h1 : n < 10 ^ (n + 1) := by
    calc n < 10 ^ n := Nat.lt_pow_self (by norm_num) n
    _ ≤ 10 ^ (n + 1) := Nat.pow_le_pow_right (by norm_num) (Nat.le_succ n)
  simpa using toDigitsCore_length_eq (n + 1) n [] (Nat.succ_pos n) h1

theorem repr_len_le (n k : Nat) (hk : 0 < k) (h : n < 10 ^ k) : (Nat.repr n).data.length ≤ k := by
  rw [repr_data_length]
  rcases Nat.eq_zero_or_pos n with h0 | h0
  · subst h0; simp [Nat.log_zero_right]; omega
  · have := Nat.log_lt_of_lt_pow (Nat.pos_iff_ne_zero.mp h0) h
    omega

theorem repr_len_eq (n k : Nat) (h1 : 10 ^ k ≤ n) (h2 : n < 10 ^ (k + 1)) :
    (Nat.repr n).data.length = k + 1 := by
  rw [repr_data_length, Nat.log_eq_of_pow_le_of_lt_pow h1 h2]

theorem jsPadStart_length (s : String) (k : Nat) (c : Char) (h : s.data.length ≤ k) :
    (jsPadStart s k c).data.length = k := by
  unfold jsPadStart
  split
  next hle => omega
  next hle =>
    show (List.replicate (k - s.data.length) c ++ s.data).length = k
    rw [List.length_append, List.length_replicate]
    omega

theorem jsPadStart_all_digits (s : String) (k : Nat) (h : s.data.all isDigit09 = true) :
    (jsPadStart s k '0').data.all isDigit09 = true := by
  unfold jsPadStart
  split
  next => exact h
  next =>
    show (List.replicate (k - s.data.length) '0' ++ s.data).all isDigit09 = true
    rw [List.all_append, h, Bool.and_true, List.all_eq_true]
    intro x hx
    rw [List.eq_of_mem_replicate hx]
    decide


theorem string_append_data (s t : String) : (s ++ t).data = s.data ++ t.data := rfl

theorem dash_data : ("-" : String).data = ['-'] := rfl

theorem dateStr_length (d : MexDate) (hy1 : 1000 ≤ d.year) (hy2 : d.year ≤ 9999)
    (hm : d.month ≤ 12) (hd : d.day ≤ 31) : (dateStr d).data.length = 8 := by
  have hy : (Nat.repr d.year).data.length = 4 := by
    refine repr_len_eq d.year 3 ?_ ?_ <;> norm_num <;> omega
  have hmo : (pad2 d.month).data.length = 2 := by
    refine jsPadStart_length _ 2 '0' (repr_len_le d.month 2 (by norm_num) ?_)
    norm_num
    omega
  have hda : (pad2 d.day).data.length = 2 := by
    refine jsPadStart_length _ 2 '0' (repr_len_le d.day 2 (by norm_num) ?_)
    norm_num
    omega
  unfold dateStr
  rw [string_append_data, string_append_data, List.length_append, List.length_append,
    hy, hmo, hda]

theorem dateStr_digits (d : MexDate) : (dateStr d).data.all isDigit09 = true := by
  unfold dateStr pad2
  rw [string_append_data, string_append_data, List.all_append, List.all_append]
  rw [repr_data_all_digits, jsPadStart_all_digits _ _ (repr_data_all_digits d.month),
    jsPadStart_all_digits _ _ (repr_data_all_digits d.day)]
  rfl

theorem ticket_code_shape (t : TicketType) :
    (TICKET_CODES t).data.length = 3 ∧ (TICKET_CODES t).data.all isUpperAZ = true := by
  cases t <;> exact ⟨rfl, rfl⟩

theorem matchesFolioPattern_parts (a b c : List Char)
    (ha : a.length = 3) (hau : a.all isUpperAZ = true)
    (hb : b.length = 8) (hbd : b.all isDigit09 = true)
    (hc : c.length = 4) (hcd : c.all isDigit09 = true) :
    matchesFolioPattern ⟨a ++ '-' :: (b ++ '-' :: c)⟩ = true := by
  unfold matchesFolioPattern
  have h17 : (a ++ '-' :: (b ++ '-' :: c)).length = 17 := by
    simp [List.length_append, ha, hb, hc]
  have htake : (a ++ '-' :: (b ++ '-' :: c)).take 3 = a := List.take_left' ha
  have hidx3 : (a ++ '-' :: (b ++ '-' :: c))[3]? = some '-' := by
    rw [List.getElem?_append_right (by omega)]
    simp [ha]
  have hsplit1 : a ++ '-' :: (b ++ '-' :: c) = (a ++ ['-']) ++ (b ++ '-' :: c) := by simp
  have hmid : ((a ++ '-' :: (b ++ '-' :: c)).drop 4).take 8 = b := by
    rw [hsplit1, List.drop_left' (by simp [ha]), List.take_left' hb]
  have hsplit2 : a ++ '-' :: (b ++ '-' :: c) = ((a ++ ['-']) ++ b) ++ ('-' :: c) := by simp
  have hidx12 : (a ++ '-' :: (b ++ '-' :: c))[12]? = some '-' := by
    rw [hsplit2, List.getElem?_append_right (by simp [ha, hb])]
    simp [ha, hb]
  have hsplit3 : a ++ '-' :: (b ++ '-' :: c) = (((a ++ ['-']) ++ b) ++ ['-']) ++ c := by simp
  have hdrop13 : (a ++ '-' :: (b ++ '-' :: c)).drop 13 = c := by
    rw [hsplit3, List.drop_left' (by simp [ha, hb])]
  simp only [h17, htake, hidx3, hmid, hidx12, hdrop13, hau, hbd, hcd]
  decide

theorem folio_data_shape (t : TicketType) (d : MexDate) (store : List String) :
    (generateTicketFolioFromPG t d store).data =
      (TICKET_CODES t).data ++ '-' :: ((dateStr d).data ++ '-' ::
        (jsPadStart (Nat.repr (nextFolioSeq store (folioDatePfx t d))) 4 '0').data) := by
  show (folioDatePfx t d ++ "-" ++ _).data = _
  unfold folioDatePfx
  rw [string_append_data, string_append_data, string_append_data, string_append_data,
    dash_data]
  simp [List.append_assoc]

/-- Claim C1 (corrected, amended form): on the normal store-backed path, provided the
computed next sequence number is at most 9999, the generated folio is the three-letter
type code, the local date string and the zero-padded next sequence joined by dashes; it
matches the anchored pattern of three capitals, eight digits and four digits, and its
characters 4 through 11 are exactly the local date string.  The next sequence is the
parsed trailing four digits of the lexicographically last stored folio sharing the
type+date start, plus one, or 1 when none matches. -/
theorem folio_format_store_backed (t : TicketType) (d : MexDate) (store : List String)
    (hy1 : 1000 ≤ d.year) (hy2 : d.year ≤ 9999) (hm : d.month ≤ 12) (hd : d.day ≤ 31)
    (hseq : nextFolioSeq store (folioDatePfx t d) ≤ 9999) :
    matchesFolioPattern (generateTicketFolioFromPG t d store) = true ∧
    ((generateTicketFolioFromPG t d store).data.drop 4).take 8 = (dateStr d).data ∧
    (generateTicketFolioFromPG t d store).data =
      (TICKET_CODES t).data ++ '-' :: ((dateStr d).data ++ '-' ::
        (jsPadStart (Nat.repr (nextFolioSeq store (folioDatePfx t d))) 4 '0').data) := by
  obtain ⟨hc3, hcu⟩ := ticket_code_shape t
  have hds8 := dateStr_length d hy1 hy2 hm hd
  have hdsd := dateStr_digits d
  have hp4len :
      (jsPadStart (Nat.repr (nextFolioSeq store (folioDatePfx t d))) 4 '0').data.length = 4 := by
    refine jsPadStart_length _ 4 '0' (repr_len_le _ 4 (by norm_num) ?_)
    norm_num
    omega
  have hp4d := jsPadStart_all_digits (Nat.repr (nextFolioSeq store (folioDatePfx t d))) 4
    (repr_data_all_digits _)
  have hshape := folio_data_shape t d store
  refine ⟨?_, ?_, hshape⟩
  · rw [show generateTicketFolioFromPG t d store =
        (⟨(TICKET_CODES t).data ++ '-' :: ((dateStr d).data ++ '-' ::
          (jsPadStart (Nat.repr (nextFolioSeq store (folioDatePfx t d))) 4 '0').data)⟩ :
            String) from String.ext hshape]
    exact matchesFolioPattern_parts _ _ _ hc3 hcu hds8 hdsd hp4len hp4d
  · rw [hshape]
    rw [show (TICKET_CODES t).data ++ '-' :: ((dateStr d).data ++ '-' ::
          (jsPadStart (Nat.repr (nextFolioSeq store (folioDatePfx t d))) 4 '0').data) =
        ((TICKET_CODES t).data ++ ['-']) ++ ((dateStr d).data ++ '-' ::
          (jsPadStart (Nat.repr (nextFolioSeq store (folioDatePfx t d))) 4 '0').data)
      from by simp]
    rw [List.drop_left' (by simp [hc3]), List.take_left' hds8]

/-- Witness for the amended claim C1 at a concrete date and store. -/
theorem folio_format_store_backed_witness :
    matchesFolioPattern (generateTicketFolioFromPG .fuga ⟨2026, 1, 6⟩ ["FUG-20260106-0041"]) =
      true ∧
    ((generateTicketFolioFromPG .fuga ⟨2026, 1, 6⟩ ["FUG-20260106-0041"]).data.drop 4).take 8 =
      (dateStr ⟨2026, 1, 6⟩).data ∧
    (generateTicketFolioFromPG .fuga ⟨2026, 1, 6⟩ ["FUG-20260106-0041"]).data =
      (TICKET_CODES .fuga).data ++ '-' :: ((dateStr ⟨2026, 1, 6⟩).data ++ '-' ::
        (jsPadStart
          (Nat.repr (nextFolioSeq ["FUG-20260106-0041"] (folioDatePfx .fuga ⟨2026, 1, 6⟩)))
          4 '0').data) :=
  folio_format_store_backed .fuga ⟨2026, 1, 6⟩ ["FUG-20260106-0041"]
    (by decide) (by decide) (by decide) (by decide) (by decide)

/-- Claim C1 counterexample: with FUG-20260106-9999 already stored, the folio generated on
the store-backed path for a leak ticket on 2026-01-06 is FUG-20260106-10000, whose
trailing sequence has five digits, so it violates the anchored pattern of the claim. -/
theorem folio_format_counterexample :
    generateTicketFolioFromPG .fuga ⟨2026, 1, 6⟩ ["FUG-20260106-9999"] =
      "FUG-20260106-10000" ∧
    matchesFolioPattern
      (generateTicketFolioFromPG .fuga ⟨2026, 1, 6⟩ ["FUG-20260106-9999"]) = false := by
  decide

-- ============================================
-- context.ts and tools.ts: ticket creation
-- ============================================

/-- ChatwootContext from context.ts, as returned by getCurrentChatwootContext. -/
structure ChatwootContext where
  conversationId : Option Int
  contactId : Option Int
  inboxId : Option Int
deriving DecidableEq

/-- CreateTicketInput from types.ts. -/
structure CreateTicketInput where
  service_type : TicketType
  titulo : String
  descripcion : String
  contract_number : Option String
  email : Option String
  ubicacion : Option String
  priority : Option TicketPriority
  client_name : Option String
  contact_id : Option Int
  conversation_id : Option Int
  inbox_id : Option Int
deriving DecidableEq

/-- CreateTicketResult from types.ts. -/
structure CreateTicketResult where
  success : Bool
  folio : Option String
  ticketId : Option String
  error : Option String
  message : Option String
  warning : Option String
deriving DecidableEq

/-- The column values of a row inserted into the tickets table by createTicketDirect. -/
structure TicketRow where
  account_id : Int
  folio : String
  title : String
  description : String
  status : String
  priority : String
  ticket_type : String
  service_type : String
  channel : String
  contract_number : Option String
  client_name : String
  contact_id : Option Int
  conversation_id : Option Int
  inbox_id : Option Int
  metaEmail : Option String
  metaUbicacion : Option String
deriving DecidableEq

/-- Environment of one createTicketDirect call: the ambient Chatwoot context, the local
clock, the reachability and contents of the persistent store, and the contact
directory. -/
structure TicketEnv where
  ctx : ChatwootContext
  date : MexDate
  nowMs : Nat
  storeFolios : List String
  folioQueryOk : Bool
  contactNameById : Int → Option String
  contactByContract : String → Option (Int × String)
  insertOk : Bool
  insertId : Int
  accountId : Int

/-- JavaScript truthiness of an optional string: undefined, null and the empty string are
falsy. -/
def truthyStr : Option String → Option String
  | some s => if s = "" then none else some s
  | none => none

/-- JavaScript truthiness of an optional number: undefined, null and zero are falsy. -/
def truthyInt : Option Int → Option Int
  | some n => if n = 0 then none else some n
  | none => none

/-- createTicketDirect from tools.ts: computes the folio (store-backed with an internal
timestamp fallback), resolves contact linkage and client name, and inserts the row; on
insert failure the outer catch still reports success with a locally generated folio and a
warning.  Returns the user-facing result together with the inserted row, when one was
inserted. -/
def createTicketDirect (env : TicketEnv) (input : CreateTicketInput) :
    CreateTicketResult × Option TicketRow :=
  let folio := generateTicketFolioFromPGFull input.service_type env.date env.folioQueryOk
    env.storeFolios env.nowMs
  let serviceType := SERVICE_TYPE_MAP input.service_type
  let ticketType := TICKET_CODES input.service_type
  let priority := PRIORITY_MAP (input.priority.getD .media)
  let contactId0 := input.contact_id.orElse (fun _ => env.ctx.contactId)
  let conversationId := input.conversation_id.orElse (fun _ => env.ctx.conversationId)
  let inboxId := input.inbox_id.orElse (fun _ => env.ctx.inboxId)
  let clientName1 :=
    match truthyInt contactId0, truthyStr input.client_name with
    | some cid, none =>
        match env.contactNameById cid with
        | some nm => some nm
        | none => input.client_name
    | _, _ => input.client_name
  let step2 :=
    match truthyInt contactId0, truthyStr input.contract_number with
    | none, some cn =>
        match env.contactByContract cn with
        | some (cid, nm) =>
            (some cid,
              match truthyStr clientName1 with
              | some s => some s
              | none => some nm)
        | none => (contactId0, clientName1)
    | _, _ => (contactId0, clientName1)
  if env.insertOk then
    let row : TicketRow := {
      account_id := env.accountId
      folio := folio
      title := input.titulo
      description := input.descripcion
      status := "open"
      priority := priority
      ticket_type := ticketType
      service_type := serviceType
      channel := "whatsapp"
      contract_number := truthyStr input.contract_number
      client_name := (truthyStr step2.2).getD "Cliente WhatsApp"
      contact_id := step2.1
      conversation_id := conversationId
      inbox_id := inboxId
      metaEmail := truthyStr input.email
      metaUbicacion := truthyStr input.ubicacion }
    ({ success := true
       folio := some folio
       ticketId := some (toString env.insertId)
       error := none
       message := some ("Ticket creado exitosamente con folio " ++ folio)
       warning := none }, some row)
  else
    let fb := generateTicketFolio input.service_type env.date env.nowMs
    ({ success := true
       folio := some fb
       ticketId := none
       error := none
       message := some ("Ticket registrado con folio " ++ fb)
       warning := some "Ticket creado localmente, sincronización pendiente" }, none)

/-- A concrete environment for evaluating ticket creation: empty contact directory,
reachable store. -/
def sampleTicketEnv : TicketEnv :=
  { ctx := ⟨none, none, none⟩
    date := ⟨2026, 1, 6⟩
    nowMs := 1767744003456
    storeFolios := []
    folioQueryOk := true
    contactNameById := fun _ => none
    contactByContract := fun _ => none
    insertOk := true
    insertId := 7
    accountId := 1 }

/-- The same environment with the persistent store unreachable at insert time. -/
def sampleTicketEnvDown : TicketEnv :=
  { sampleTicketEnv with insertOk := false }

def sampleTicketInput : CreateTicketInput :=
  { service_type := .fuga
    titulo := "Fuga de agua en calle"
    descripcion := "Reporte de fuga en la esquina"
    contract_number := some "523160"
    email := none
    ubicacion := none
    priority := none
    client_name := none
    contact_id := none
    conversation_id := none
    inbox_id := none }

def emptyTicketRow : TicketRow :=
  { account_id := 0, folio := "", title := "", description := "", status := "",
    priority := "", ticket_type := "", service_type := "", channel := "",
    contract_number := none, client_name := "", contact_id := none,
    conversation_id := none, inbox_id := none, metaEmail := none, metaUbicacion := none }

def sampleTicketRow : TicketRow :=
  ((createTicketDirect sampleTicketEnv sampleTicketInput).2).getD emptyTicketRow

/-- Claim C10: every row createTicketDirect inserts carries status open, whatever the
input, and priority medium when the caller supplies no priority; no other initial status
is reachable through this interface. -/
theorem ticket_insert_status_open (env : TicketEnv) (input : CreateTicketInput)
    (row : TicketRow) (h : (createTicketDirect env input).2 = some row) :
    row.status = "open" ∧ (input.priority = none → row.priority = "medium") := by
  unfold createTicketDirect at h
  by_cases hins : env.insertOk
  · simp only [hins, if_true] at h
    cases h
    refine ⟨rfl, fun hp => ?_⟩
    simp [hp, Option.getD, PRIORITY_MAP]
  · simp [hins] at h

/-- Witness for claim C10 at a concrete environment and input. -/
theorem ticket_insert_status_open_witness :
    (createTicketDirect sampleTicketEnv sampleTicketInput).2 = some sampleTicketRow ∧
    (sampleTicketRow.status = "open" ∧
      (sampleTicketInput.priority = none → sampleTicketRow.priority = "medium")) :=
  ⟨by decide, ticket_insert_status_open sampleTicketEnv sampleTicketInput sampleTicketRow
    (by decide)⟩

/-- Claim C2: when persisting the ticket fails, createTicketDirect still reports success,
returns the non-empty locally computed timestamp-suffix folio, carries the warning, sets
no error, and inserts nothing. -/
theorem ticket_persistence_fallback (env : TicketEnv) (input : CreateTicketInput)
    (h : env.insertOk = false) :
    (createTicketDirect env input).1.success = true ∧
    (createTicketDirect env input).1.folio =
      some (generateTicketFolio input.service_type env.date env.nowMs) ∧
    (generateTicketFolio input.service_type env.date env.nowMs).data ≠ [] ∧
    (createTicketDirect env input).1.warning =
      some "Ticket creado localmente, sincronización pendiente" ∧
    (createTicketDirect env input).1.error = none ∧
    (createTicketDirect env input).2 = none := by
  have hne : (generateTicketFolio input.service_type env.date env.nowMs).data ≠ [] := by
    unfold generateTicketFolio folioDatePfx
    rw [string_append_data, string_append_data, string_append_data, dash_data]
    intro hc
    have hlen := congrArg List.length hc
    simp [List.length_append] at hlen
  unfold createTicketDirect
  simp only [h, Bool.false_eq_true, if_false]
  simp [hne]

/-- Witness for claim C2: the store is unreachable, yet the result carries a folio, a
warning and success. -/
theorem ticket_persistence_fallback_witness :
    sampleTicketEnvDown.insertOk = false ∧
    ((createTicketDirect sampleTicketEnvDown sampleTicketInput).1.success = true ∧
      (createTicketDirect sampleTicketEnvDown sampleTicketInput).1.folio =
        some (generateTicketFolio sampleTicketInput.service_type sampleTicketEnvDown.date
          sampleTicketEnvDown.nowMs) ∧
      (generateTicketFolio sampleTicketInput.service_type sampleTicketEnvDown.date
        sampleTicketEnvDown.nowMs).data ≠ [] ∧
      (createTicketDirect sampleTicketEnvDown sampleTicketInput).1.warning =
        some "Ticket creado localmente, sincronización pendiente" ∧
      (createTicketDirect sampleTicketEnvDown sampleTicketInput).1.error = none ∧
      (createTicketDirect sampleTicketEnvDown sampleTicketInput).2 = none) :=
  ⟨by decide, ticket_persistence_fallback sampleTicketEnvDown sampleTicketInput (by decide)⟩

-- ============================================
-- tools.ts: fetchWithRetry (Resilient External Client)
-- ============================================

/-- Outcome of one underlying fetch attempt: an HTTP response with its ok flag and status
code, or a transport exception with its message. -/
inductive AttemptOutcome
  | response (ok : Bool) (status : Nat)
  | exn (msg : String)
deriving DecidableEq

/-- Result of a fetchWithRetry run: the returned response or the raised error, together
with the trace of sleep durations performed between attempts. -/
structure FetchRun where
  result : Except String (Bool × Nat)
  delays : List Nat

/-- The loop body of fetchWithRetry: attempt counts from one; a not-ok response or an
exception on a non-final attempt sleeps delayMs times the attempt number and continues;
otherwise the response is returned, or, past the final attempt, the last error is
raised. -/
def fetchAux (f : Nat → AttemptOutcome) (delayMs maxRetries : Nat) :
    Nat → Nat → Option String → List Nat → FetchRun
  | _, 0, lastErr, delays =>
      ⟨.error (lastErr.getD "Request failed after retries"), delays⟩
  | attempt, fuel + 1, lastErr, delays =>
      match f attempt with
      | .response ok status =>
          if !ok && decide (attempt < maxRetries) then
            fetchAux f delayMs maxRetries (attempt + 1) fuel lastErr
              (delays ++ [delayMs * attempt])
          else ⟨.ok (ok, status), delays⟩
      | .exn m =>
          if attempt < maxRetries then
            fetchAux f delayMs maxRetries (attempt + 1) fuel (some m)
              (delays ++ [delayMs * attempt])
          else ⟨.error m, delays⟩

/-- fetchWithRetry from tools.ts, abstracted over the per-attempt outcomes of the
underlying fetch. -/
def fetchWithRetry (f : Nat → AttemptOutcome) (maxRetries delayMs : Nat) : FetchRun :=
  fetchAux f delayMs maxRetries 1 maxRetries none []

/-- A failing attempt: a response that is not ok, or a transport exception. -/
def failing : AttemptOutcome → Bool
  | .response ok _ => !ok
  | .exn _ => true

/-- The outcome of the final attempt passed through as-is: the response is returned whatever
its status; an exception is raised. -/
def finalAsIs : AttemptOutcome → Except String (Bool × Nat)
  | .response ok status => .ok (ok, status)
  | .exn m => .error m

theorem fetchAux_prefix_fail (f : Nat → AttemptOutcome) (delayMs maxRetries : Nat) :
    ∀ fuel attempt lastErr delays, 1 ≤ fuel → attempt + fuel = maxRetries + 1 →
      (∀ k, attempt ≤ k → k < maxRetries → failing (f k) = true) →
      fetchAux f delayMs maxRetries attempt fuel lastErr delays =
        ⟨finalAsIs (f maxRetries),
          delays ++ (List.range (fuel - 1)).map (fun i => delayMs * (attempt + i))⟩ := by
  intro fuel
  induction fuel with
  | zero => intro attempt lastErr delays h1; omega
  | succ n ih =>
      intro attempt lastErr delays _ hsum hfail
      rcases Nat.eq_zero_or_pos n with hn | hn
      · subst hn
        have hfin : attempt = maxRetries := by omega
        subst hfin
        cases hout : f attempt with
        | response ok status =>
            simp [fetchAux, hout, finalAsIs, Nat.lt_irrefl]
        | exn m =>
            simp [fetchAux, hout, finalAsIs, Nat.lt_irrefl]
      · have hlt : attempt < maxRetries := by omega
        have hstep : ∀ k, attempt + 1 ≤ k → k < maxRetries → failing (f k) = true := by
          intro k hk1 hk2
          exact hfail k (by omega) hk2
        have hrange : (List.range n).map (fun i => delayMs * (attempt + i)) =
            delayMs * attempt ::
              (List.range (n - 1)).map (fun i => delayMs * (attempt + 1 + i)) := by
          have hn' : n = (n - 1) + 1 := by omega
          rw [hn', List.range_succ_eq_map, List.map_cons, List.map_map]
          refine congrArg₂ List.cons (by rw [Nat.add_zero]) ?_
          refine List.map_congr_left ?_
          intro i _
          show delayMs * (attempt + (i + 1)) = delayMs * (attempt + 1 + i)
          have harith : attempt + (i + 1) = attempt + 1 + i := by omega
          rw [harith]
        cases hout : f attempt with
        | response ok status =>
            have hok : ok = false := by
              have := hfail attempt (le_refl attempt) hlt
              simpa [failing, hout] using this
            subst hok
            rw [show fetchAux f delayMs maxRetries attempt (n + 1) lastErr delays =
                fetchAux f delayMs maxRetries (attempt + 1) n lastErr
                  (delays ++ [delayMs * attempt]) from by
              simp [fetchAux, hout, hlt]]
            rw [ih (attempt + 1) lastErr (delays ++ [delayMs * attempt]) hn (by omega) hstep]
            simp [hrange]
        | exn m =>
            rw [show fetchAux f delayMs maxRetries attempt (n + 1) lastErr delays =
                fetchAux f delayMs maxRetries (attempt + 1) n (some m)
                  (delays ++ [delayMs * attempt]) from by
              simp [fetchAux, hout, hlt]]
            rw [ih (attempt + 1) (some m) (delays ++ [delayMs * attempt]) hn (by omega) hstep]
            simp [hrange]

/-- Claim C8: when every non-final attempt fails (a not-ok response or a transport
exception), each non-final attempt k is followed by a sleep of delayMs times k before the
retry, and the outcome of the final attempt — response of any status, or exception — is
returned or raised as-is. -/
theorem fetch_retry_linear_backoff (f : Nat → AttemptOutcome) (maxRetries delayMs : Nat)
    (hmax : 1 ≤ maxRetries)
    (hfail : ∀ k, 1 ≤ k → k < maxRetries → failing (f k) = true) :
    (fetchWithRetry f maxRetries delayMs).delays =
      (List.range (maxRetries - 1)).map (fun i => delayMs * (i + 1)) ∧
    (fetchWithRetry f maxRetries delayMs).result = finalAsIs (f maxRetries) := by
  unfold fetchWithRetry
  rw [fetchAux_prefix_fail f delayMs maxRetries maxRetries 1 none [] hmax (by omega) hfail]
  constructor
  · simp only [List.nil_append]
    refine List.map_congr_left ?_
    intro i _
    rw [Nat.add_comm]
  · rfl

/-- Witness for claim C8: three attempts, the first two failing (one bad status, one
exception), delays of 1000 and 2000 milliseconds, and the final response returned. -/
theorem fetch_retry_linear_backoff_witness :
    (fetchWithRetry
        (fun k => if k = 1 then .response false 500
          else if k = 2 then .exn "ECONNRESET" else .response true 200)
        3 1000).delays = (List.range 2).map (fun i => 1000 * (i + 1)) ∧
    (fetchWithRetry
        (fun k => if k = 1 then .response false 500
          else if k = 2 then .exn "ECONNRESET" else .response true 200)
        3 1000).result = finalAsIs
      ((fun k => if k = 1 then .response false 500
          else if k = 2 then .exn "ECONNRESET" else .response true 200) 3) :=
  fetch_retry_linear_backoff _ 3 1000 (by decide) (by decide)

-- ============================================
-- tools.ts: parseXMLArray (Structured-Response Parser, repeated groups)
-- ============================================

/-- Case folding for the case-insensitive regex flag: ASCII letters, plus the accented
capitals occurring in the source patterns. -/
def foldChar (c : Char) : Char :=
  if decide ('A' ≤ c) && decide (c ≤ 'Z') then Char.ofNat (c.toNat + 32)
  else if c = 'Í' then 'í'
  else if c = 'Ú' then 'ú'
  else c

/-- Case-insensitive: does the second list start with the first. -/
def ciStarts : List Char → List Char → Bool
  | [], _ => true
  | _ :: _, [] => false
  | p :: ps, c :: cs => foldChar p = foldChar c && ciStarts ps cs

/-- Splits at the first (case-insensitive) occurrence of pat: the part strictly before the
occurrence and the part strictly after it. -/
def splitFirst (pat : List Char) : List Char → Option (List Char × List Char)
  | [] => if pat = [] then some ([], []) else none
  | c :: rest =>
      if ciStarts pat (c :: rest) then some ([], (c :: rest).drop pat.length)
      else
        match splitFirst pat rest with
        | some (pre, post) => some (c :: pre, post)
        | none => none

/-- Consume up to and including the first closing angle bracket; the skipped characters
are exactly the attribute characters admitted by the opening-tag regex. -/
def dropToGt : List Char → Option (List Char)
  | [] => none
  | c :: rest => if c = '>' then some rest else dropToGt rest

/-- Matches one container element at a position whose opening angle bracket was just
consumed: the tag name case-insensitively, attribute characters up to the bracket, then
the lazily shortest body up to the exact close tag.  Returns the captured body and the
input remaining after the close tag. -/
def matchContainerAt (tag : List Char) (rest : List Char) : Option (List Char × List Char) :=
  if ciStarts tag rest then
    match dropToGt (rest.drop tag.length) with
    | some afterOpen => splitFirst ('<' :: '/' :: (tag ++ ['>'])) afterOpen
    | none => none
  else none

/-- The global scan of the container regex in parseXMLArray: leftmost matches, resuming
after each match.  Fuel of one unit per character is sufficient, as every step consumes
at least one character. -/
def scanContainers (tag : List Char) : Nat → List Char → List (List Char)
  | 0, _ => []
  | _, [] => []
  | fuel + 1, c :: rest =>
      if c = '<' then
        match matchContainerAt tag rest with
        | some (content, after) => content :: scanContainers tag fuel after
        | none => scanContainers tag fuel rest
      else scanContainers tag fuel rest

/-- parseXMLArray from tools.ts: collects the captured bodies of the container-tag
elements.  The itemTag parameter is present in the source signature but unused by its
body. -/
def parseXMLArray (xml containerTag itemTag : String) : List String :=
  (scanContainers containerTag.data xml.data.length xml.data).map (fun l => ⟨l⟩)

/-- Modelled from the spec: the repeated-group extraction the specification describes,
returning the raw inner-record substrings — the occurrences of the inner-record tag found
in the document — ordered as they appear.  A raw occurrence spans from the opening
bracket of the inner-record tag through its close tag. -/
def specScanRecords (tag : List Char) : Nat → List Char → List (List Char)
  | 0, _ => []
  | _, [] => []
  | fuel + 1, c :: rest =>
      if c = '<' then
        match matchContainerAt tag rest with
        | some (_, after) =>
            ((c :: rest).take ((c :: rest).length - after.length)) ::
              specScanRecords tag fuel after
        | none => specScanRecords tag fuel rest
      else specScanRecords tag fuel rest

/-- Modelled from the spec: see specScanRecords. -/
def specParseXMLArray (xml containerTag itemTag : String) : List String :=
  (specScanRecords itemTag.data xml.data.length xml.data).map (fun l => ⟨l⟩)

/-- Claim C3 counterexample: on a document whose container element holds two inner
records, the source extraction returns the single container body, not the list of the two
inner-record substrings the claim describes (modelled by specParseXMLArray). -/
theorem parseXMLArray_counterexample :
    parseXMLArray "<c><i>a</i><i>b</i></c>" "c" "i" = ["<i>a</i><i>b</i>"] ∧
    specParseXMLArray "<c><i>a</i><i>b</i></c>" "c" "i" = ["<i>a</i>", "<i>b</i>"] ∧
    parseXMLArray "<c><i>a</i><i>b</i></c>" "c" "i" ≠
      specParseXMLArray "<c><i>a</i><i>b</i></c>" "c" "i" := by
  refine ⟨by decide, by decide, by decide⟩

/-- Claim C3 (corrected, amended form): the repeated-group extraction of the source
depends only on the document and the container tag; the inner-record tag argument is
ignored, so the result is the ordered list of container-element bodies, not of
inner-record occurrences. -/
theorem parseXMLArray_ignores_itemTag (xml containerTag itemTag1 itemTag2 : String) :
    parseXMLArray xml containerTag itemTag1 = parseXMLArray xml containerTag itemTag2 := rfl

-- ============================================
-- agent.ts: classifications and the conversation store
-- ============================================

inductive Classification
  | atencion_ciudadana | transporte_ameq | agua_cea | educacion_usebeq
  | tramites_vehiculares | psicologia_sejuve | mujeres_iqm | cultura
  | registro_publico_rpp | conciliacion_cclq | vivienda_iveq | appqro
  | programas_sedesoq | hablar_asesor | tickets | no_se
deriving DecidableEq

inductive CeaSubClassification
  | fuga | pagos | consumos | contrato | informacion_cea
deriving DecidableEq

inductive Role
  | user | assistant
deriving DecidableEq

/-- One item of the per-conversation history (an AgentInputItem, reduced to the parts the
core reads and writes). -/
structure HistoryItem where
  role : Role
  text : String
deriving DecidableEq

/-- ConversationEntry from agent.ts. -/
structure ConversationEntry where
  history : List HistoryItem
  lastAccess : Nat
  contractNumber : Option String
  classification : Option Classification
  activeFlow : Option Classification
  activeCeaSubType : Option CeaSubClassification
  chatwootConversationId : Option Int
  chatwootContactId : Option Int
  chatwootInboxId : Option Int
deriving DecidableEq

/-- The conversation Map keyed by conversation id, as its lookup denotation. -/
def ConversationStore := String → Option ConversationEntry

def emptyEntry (now : Nat) : ConversationEntry :=
  { history := [], lastAccess := now, contractNumber := none, classification := none,
    activeFlow := none, activeCeaSubType := none, chatwootConversationId := none,
    chatwootContactId := none, chatwootInboxId := none }

def storeSet (s : ConversationStore) (id : String) (e : ConversationEntry) :
    ConversationStore :=
  fun k => if k = id then some e else s k

/-- getConversation from agent.ts: refresh lastAccess on every access, creating an empty
entry on the first access for an id. -/
def getConversation (s : ConversationStore) (now : Nat) (id : String) :
    ConversationEntry × ConversationStore :=
  match s id with
  | some e =>
      let e2 := { e with lastAccess := now }
      (e2, storeSet s id e2)
  | none =>
      let e := emptyEntry now
      (e, storeSet s id e)

/-- One cycle of the five-minute interval sweep: every entry idle strictly longer than
3600000 milliseconds is deleted. -/
def sweepStore (s : ConversationStore) (now : Nat) : ConversationStore :=
  fun k =>
    match s k with
    | some e => if now - e.lastAccess > 3600000 then none else some e
    | none => none

-- ============================================
-- agent.ts: input patterns of the workflow
-- ============================================

/-- Trailing part of the greeting regex: optional whitespace then optional closing
punctuation, anchored at the end. -/
def greetTail (l : List Char) : Bool :=
  ((l.dropWhile jsIsSpace).dropWhile (fun c => c = '.' || c = '!' || c = '?')).isEmpty

def stripCI (pat : List Char) (l : List Char) : Option (List Char) :=
  if ciStarts pat l then some (l.drop pat.length) else none

/-- After bueno or buenos: optional whitespace then one of the day words. -/
def buenosDayPart (l : List Char) : List (List Char) :=
  let l2 := l.dropWhile jsIsSpace
  [stripCI "dias".data l2, stripCI "días".data l2, stripCI "tardes".data l2,
    stripCI "noches".data l2].filterMap id

/-- All remainders of the greeting-head alternation matched against the input. -/
def greetingRemainders (l : List Char) : List (List Char) :=
  ([stripCI "hola".data l, stripCI "hey".data l, stripCI "hi".data l,
      stripCI "buenas".data l, stripCI "saludos".data l].filterMap id) ++
    (match stripCI "bueno".data l with
     | some rest =>
         (match stripCI "s".data rest with
          | some rest2 => buenosDayPart rest2
          | none => []) ++ buenosDayPart rest
     | none => []) ++
    (match stripCI "que".data l with
     | some rest => (stripCI "tal".data (rest.dropWhile jsIsSpace)).toList
     | none => [])

/-- The greeting regex of the workflow, applied to the trimmed input. -/
def matchesGreeting (s : String) : Bool :=
  (greetingRemainders s.data).any greetTail

/-- The explicit switch regex: the trimmed input starts, case-insensitively, with one of
the switch words (no end anchor). -/
def matchesExplicitSwitch (s : String) : Bool :=
  [("menu" : String), "menú", "cambiar", "otro servicio", "salir",
    "empezar de nuevo", "reiniciar"].any (fun p => ciStarts p.data s.data)

/-- The maximal word-character runs of the input, in order; the accumulator carries the
current run reversed. -/
def wordRunsGo (acc : List Char) : List Char → List (List Char)
  | [] => if acc.isEmpty then [] else [acc.reverse]
  | c :: rest =>
      if isWordChar c then wordRunsGo (c :: acc) rest
      else if acc.isEmpty then wordRunsGo [] rest
      else acc.reverse :: wordRunsGo [] rest

def wordRuns (l : List Char) : List (List Char) := wordRunsGo [] l

/-- The first match of the word-boundary-delimited run of six to ten digits: word
boundaries force the token to be a maximal word run, all digits, of admissible length. -/
def firstContractToken (s : String) : Option String :=
  ((wordRuns s.data).find? (fun r =>
      r.all isDigit09 && decide (6 ≤ r.length) && decide (r.length ≤ 10))).map
    (fun r => ⟨r⟩)

-- ============================================
-- agent.ts: fixed texts of the workflow
-- ============================================

def SANTIAGO_WELCOME_MESSAGE : String :=
  "¡Hola! 👋 Soy *Santiago*, tu asistente del Gobierno del Estado de Querétaro.\n\nCuéntame, ¿en qué te puedo ayudar hoy?"

def SANTIAGO_HELP_MESSAGE : String :=
  "Puedo ayudarte con muchos temas, por ejemplo:\n\n- *Transporte público* (tarjetas, rutas, QroBus)\n- *Trámites vehiculares* (tenencia, placas, verificación)\n- *Servicios de agua* (pagos, fugas, contratos)\n- *Educación* (inscripciones, becas)\n- *Atención psicológica* (apoyo emocional)\n- *Atención a mujeres* (asesoría, derechos)\n- *Vivienda* (créditos, escrituración)\n- *Programas sociales* (apoyos, Tarjeta Contigo)\n- *Cultura* (museos, eventos, talleres)\n- *Registro público* (actas, propiedades)\n- *Conciliación laboral* (conflictos de trabajo)\n- Y más...\n\n¿Qué necesitas?"

def CEA_REDIRECT_MESSAGE : String :=
  "Para temas de agua potable, la CEA cuenta con un asistente especializado que te puede ayudar con pagos, reportes de fugas, consulta de consumos y mas.\n\nTe comparto el contacto para que puedas escribirle directamente:"

def APOLOGY_MESSAGE : String :=
  "Lo siento, tuve un problema procesando tu mensaje. Podrias intentar de nuevo?"

-- ============================================
-- agent.ts: the turn workflow
-- ============================================

structure ContactCard where
  fullName : String
  phoneNumber : String
  organization : Option String
deriving DecidableEq

/-- WorkflowInput from types.ts, with the metadata field the workflow reads. -/
structure WorkflowInput where
  input_as_text : String
  conversationId : Option String
  contactId : Option Int
  metaChatwootConversationId : Option Int
deriving DecidableEq

/-- WorkflowOutput from types.ts. -/
structure WorkflowOutput where
  output_text : Option String
  classification : Option Classification
  ticketFolio : Option String
  error : Option String
  toolsUsed : Option (List String)
  contactCard : Option ContactCard
deriving DecidableEq

/-- The structured output of the classification collaborator (ClassificationSchema). -/
structure ClassifierOutput where
  classification : Classification
  extractedContract : Option String
  ceaSubType : Option CeaSubClassification
deriving DecidableEq

/-- The result of one responder dispatch (runAgentWithApproval). -/
structure AgentResult where
  output : String
  newItems : List HistoryItem
  toolsUsed : List String
deriving DecidableEq

/-- TicketEnv without its ambient context, which the workflow supplies per turn. -/
structure TicketEnvBase where
  date : MexDate
  nowMs : Nat
  storeFolios : List String
  folioQueryOk : Bool
  contactNameById : Int → Option String
  contactByContract : String → Option (Int × String)
  insertOk : Bool
  insertId : Int
  accountId : Int

def TicketEnvBase.withCtx (b : TicketEnvBase) (ctx : ChatwootContext) : TicketEnv :=
  { ctx := ctx, date := b.date, nowMs := b.nowMs, storeFolios := b.storeFolios,
    folioQueryOk := b.folioQueryOk, contactNameById := b.contactNameById,
    contactByContract := b.contactByContract, insertOk := b.insertOk,
    insertId := b.insertId, accountId := b.accountId }

/-- Oracle environment of one turn: the classifier result (error when the classifier
yields no output), the responder result per classification (error when the responder
throws, carrying the thrown message), the contextual date-time preamble, and the
ticket-service environment. -/
structure WorkflowEnv where
  classifierResult : Option ClassifierOutput
  agentResult : Classification → Except String AgentResult
  systemContext : String
  ticketBase : TicketEnvBase

/-- Observable events of one turn: whether the classification collaborator ran, which
responder was dispatched, the classification and sub-type the turn routed on, and the
direct ticket-service activity of the workflow. -/
structure TurnEvents where
  classifierCalled : Bool
  dispatched : Option Classification
  routed : Option (Classification × Option CeaSubClassification)
  ticketCalls : List CreateTicketInput
  insertedRows : List TicketRow
deriving DecidableEq

def noEvents : TurnEvents :=
  { classifierCalled := false, dispatched := none, routed := none, ticketCalls := [],
    insertedRows := [] }

/-- JavaScript parseInt with radix ten: optional leading whitespace and sign, then the
leading digit run; none models NaN. -/
def parseIntJS (s : String) : Option Int :=
  let l := s.data.dropWhile jsIsSpace
  match l with
  | '-' :: rest =>
      let ds := rest.takeWhile isDigit09
      if ds.isEmpty then none else some (-(digitsToNat ds : Int))
  | '+' :: rest =>
      let ds := rest.takeWhile isDigit09
      if ds.isEmpty then none else some ((digitsToNat ds : Int))
  | _ =>
      let ds := l.takeWhile isDigit09
      if ds.isEmpty then none else some ((digitsToNat ds : Int))

/-- The effective Chatwoot conversation id: the metadata id if truthy, else parseInt of
the raw conversation id; kept only when truthy, a number, and below one million. -/
def effectiveChatwootConversationId (input : WorkflowInput) : Option Int :=
  let raw :=
    match truthyInt input.metaChatwootConversationId with
    | some v => some v
    | none => input.conversationId.bind parseIntJS
  match raw with
  | some v => if decide (v ≠ 0) && decide (v < 1000000) then some v else none
  | none => none

/-- The stores of the Chatwoot linkage ids onto the conversation entry at the start of
the turn. -/
def applyChatwootIds (input : WorkflowInput) (conv : ConversationEntry) :
    ConversationEntry :=
  let conv1 :=
    match effectiveChatwootConversationId input with
    | some v => { conv with chatwootConversationId := some v }
    | none => conv
  match truthyInt input.contactId with
  | some c => { conv1 with chatwootContactId := some c }
  | none => conv1

/-- The history cap: keep the last twenty items. -/
def capHistory (h : List HistoryItem) : List HistoryItem :=
  if h.length > 20 then h.drop (h.length - 20) else h

/-- The apologetic error envelope of the turn-level catch. -/
def apologyOutput (msg : String) : WorkflowOutput :=
  { output_text := some APOLOGY_MESSAGE, classification := none, ticketFolio := none,
    error := some msg, toolsUsed := some [], contactCard := none }

/-- The common end of a turn: clear the flow when a ticket tool ran, append the user
message and the produced items (or the plain assistant output) to the history, and cap
it. -/
def finishTurn (um : HistoryItem) (conv : ConversationEntry) (c : Classification)
    (toolsUsed : List String) (output : String) (newItems : List HistoryItem)
    (ev : TurnEvents) : WorkflowOutput × ConversationEntry × TurnEvents :=
  let conv :=
    if toolsUsed.contains "create_ticket" || toolsUsed.contains "create_general_ticket"
    then { conv with activeFlow := none, activeCeaSubType := none }
    else conv
  let newHist :=
    if newItems.isEmpty then
      if output = "" then conv.history ++ [um]
      else conv.history ++ [um, ⟨.assistant, output⟩]
    else conv.history ++ um :: newItems
  let conv := { conv with history := capHistory newHist }
  ({ output_text := some output, classification := some c, ticketFolio := none,
     error := none, toolsUsed := some toolsUsed, contactCard := none }, conv, ev)

/-- Dispatch to the responder bound to the classification in agentMap; a thrown error
reaches the turn-level catch. -/
def dispatchBranch (env : WorkflowEnv) (um : HistoryItem) (conv : ConversationEntry)
    (c : Classification) : WorkflowOutput × ConversationEntry × TurnEvents :=
  match env.agentResult c with
  | .error msg => (apologyOutput msg, conv, { noEvents with dispatched := some c })
  | .ok ar =>
      finishTurn um conv c ar.toolsUsed ar.output ar.newItems
        { noEvents with dispatched := some c }

/-- Steps 2 to 4 of the workflow, once the turn classification and sub-type are fixed:
the two special cases (escalation to a human, utility-billing hand-off), the undecided
help message, and the generic dispatch. -/
def turnBranch (env : WorkflowEnv) (input : WorkflowInput) (ctx : ChatwootContext)
    (um : HistoryItem) (conv : ConversationEntry) (c : Classification) :
    WorkflowOutput × ConversationEntry × TurnEvents :=
  match c with
  | .hablar_asesor =>
      let tIn : CreateTicketInput :=
        { service_type := .urgente
          titulo := "Solicitud de contacto con asesor humano"
          descripcion :=
            "El ciudadano solicito hablar con un asesor humano. Mensaje original: " ++
              input.input_as_text
          contract_number := truthyStr conv.contractNumber
          email := none
          ubicacion := none
          priority := some .urgente
          client_name := none
          contact_id := none
          conversation_id := none
          inbox_id := none }
      let tkRes := createTicketDirect (env.ticketBase.withCtx ctx) tIn
      let folio := (truthyStr tkRes.1.folio).getD "PENDING"
      let output := "He creado tu solicitud con el folio " ++ folio ++
        ". Te conectare con un asesor humano. Por favor espera un momento."
      let conv := { conv with activeFlow := none, activeCeaSubType := none }
      finishTurn um conv .hablar_asesor ["create_ticket"] output []
        { noEvents with ticketCalls := [tIn], insertedRows := tkRes.2.toList }
  | .agua_cea =>
      let card : ContactCard :=
        { fullName := "CEA Querétaro - Agua Potable", phoneNumber := "4424700013",
          organization := some "Comisión Estatal de Aguas" }
      let conv := { conv with activeFlow := none, activeCeaSubType := none }
      let conv := { conv with
        history := capHistory (conv.history ++ [um, ⟨.assistant, CEA_REDIRECT_MESSAGE⟩]) }
      ({ output_text := some CEA_REDIRECT_MESSAGE, classification := some .agua_cea,
         ticketFolio := none, error := none, toolsUsed := some [],
         contactCard := some card }, conv, noEvents)
  | .no_se => finishTurn um conv .no_se [] SANTIAGO_HELP_MESSAGE [] noEvents
  | other => dispatchBranch env um conv other

/-- Step 1 continued: record the routed classification, then run the branch. -/
def runTurnBody (env : WorkflowEnv) (input : WorkflowInput) (ctx : ChatwootContext)
    (um : HistoryItem) (conv : ConversationEntry) (c : Classification)
    (sub : Option CeaSubClassification) (classifierCalled : Bool) :
    WorkflowOutput × ConversationEntry × TurnEvents :=
  let conv := { conv with classification := some c }
  let r := turnBranch env input ctx um conv c
  (r.1, r.2.1,
    { r.2.2 with classifierCalled := classifierCalled, routed := some (c, sub) })

/-- One turn of runWorkflow from agent.ts, on the loaded conversation entry: returns the
outward result, the updated entry, and the observable events of the turn. -/
def runWorkflowOnEntry (env : WorkflowEnv) (input : WorkflowInput)
    (conv0 : ConversationEntry) : WorkflowOutput × ConversationEntry × TurnEvents :=
  let ctx : ChatwootContext :=
    { conversationId := effectiveChatwootConversationId input,
      contactId := input.contactId, inboxId := none }
  let conv1 := applyChatwootIds input conv0
  let trimmed := jsTrim input.input_as_text
  if matchesGreeting trimmed then
    let conv2 := { conv1 with
      activeFlow := none
      activeCeaSubType := none
      history := conv1.history ++
        [⟨.user, trimmed⟩, ⟨.assistant, SANTIAGO_WELCOME_MESSAGE⟩] }
    ({ output_text := some SANTIAGO_WELCOME_MESSAGE, classification := some .no_se,
       ticketFolio := none, error := none, toolsUsed := some [], contactCard := none },
      conv2, noEvents)
  else
    let um : HistoryItem := ⟨.user, env.systemContext ++ "\n" ++ input.input_as_text⟩
    match conv1.activeFlow, matchesExplicitSwitch trimmed with
    | some c, false =>
        let conv2 :=
          match firstContractToken trimmed with
          | some tk => { conv1 with contractNumber := some tk }
          | none => conv1
        runTurnBody env input ctx um conv2 c conv1.activeCeaSubType false
    | _, _ =>
        match env.classifierResult with
        | none =>
            (apologyOutput "Classification failed - no output", conv1,
              { noEvents with classifierCalled := true })
        | some r =>
            let conv2 :=
              match truthyStr r.extractedContract with
              | some tk => { conv1 with contractNumber := some tk }
              | none => conv1
            let conv3 := { conv2 with
              activeFlow := some r.classification
              activeCeaSubType := r.ceaSubType }
            runTurnBody env input ctx um conv3 r.classification r.ceaSubType true

-- ============================================
-- Helper lemmas about the workflow
-- ============================================

theorem applyChatwootIds_preserves (input : WorkflowInput) (conv : ConversationEntry) :
    (applyChatwootIds input conv).activeFlow = conv.activeFlow ∧
    (applyChatwootIds input conv).activeCeaSubType = conv.activeCeaSubType ∧
    (applyChatwootIds input conv).contractNumber = conv.contractNumber ∧
    (applyChatwootIds input conv).history = conv.history := by
  unfold applyChatwootIds
  cases effectiveChatwootConversationId input <;> cases truthyInt input.contactId <;> simp

theorem dispatchBranch_fields (env : WorkflowEnv) (um : HistoryItem)
    (conv : ConversationEntry) (c : Classification) :
    (dispatchBranch env um conv c).2.1.classification = conv.classification ∧
    (dispatchBranch env um conv c).2.1.contractNumber = conv.contractNumber := by
  unfold dispatchBranch finishTurn
  cases env.agentResult c with
  | error msg => simp
  | ok ar =>
      constructor
      · simp [apply_ite ConversationEntry.classification]
      · simp [apply_ite ConversationEntry.contractNumber]

theorem turnBranch_fields (env : WorkflowEnv) (input : WorkflowInput)
    (ctx : ChatwootContext) (um : HistoryItem) (conv : ConversationEntry)
    (c : Classification) :
    (turnBranch env input ctx um conv c).2.1.classification = conv.classification ∧
    (turnBranch env input ctx um conv c).2.1.contractNumber = conv.contractNumber := by
  cases c <;>
    first
      | exact dispatchBranch_fields env um conv _
      | (constructor <;>
          simp [turnBranch, finishTurn, apply_ite ConversationEntry.classification,
            apply_ite ConversationEntry.contractNumber])

theorem runTurnBody_fields (env : WorkflowEnv) (input : WorkflowInput)
    (ctx : ChatwootContext) (um : HistoryItem) (conv : ConversationEntry)
    (c : Classification) (sub : Option CeaSubClassification) (cc : Bool) :
    (runTurnBody env input ctx um conv c sub cc).2.2.classifierCalled = cc ∧
    (runTurnBody env input ctx um conv c sub cc).2.2.routed = some (c, sub) ∧
    (runTurnBody env input ctx um conv c sub cc).2.1.classification = some c ∧
    (runTurnBody env input ctx um conv c sub cc).2.1.contractNumber =
      conv.contractNumber := by
  obtain ⟨h1, h2⟩ :=
    turnBranch_fields env input ctx um { conv with classification := some c } c
  exact ⟨rfl, rfl, by rw [show (runTurnBody env input ctx um conv c sub cc).2.1 =
      (turnBranch env input ctx um { conv with classification := some c } c).2.1 from rfl,
      h1], by rw [show (runTurnBody env input ctx um conv c sub cc).2.1 =
      (turnBranch env input ctx um { conv with classification := some c } c).2.1 from rfl,
      h2]⟩

-- ============================================
-- Claims C9 and C6
-- ============================================

/-- Claim C9: getConversation creates an empty session on first access and refreshes the
last-access stamp on every access; after a sweep cycle a session idle beyond the one-hour
TTL is absent, and a session accessed within the TTL survives. -/
theorem session_store_lifecycle (s : ConversationStore) (now : Nat) (id : String) :
    (s id = none →
      (getConversation s now id).1 = emptyEntry now ∧
      (getConversation s now id).2 id = some (emptyEntry now)) ∧
    (∀ e, s id = some e →
      (getConversation s now id).1 = { e with lastAccess := now } ∧
      (getConversation s now id).2 id = some { e with lastAccess := now }) ∧
    (∀ e, s id = some e → now - e.lastAccess > 3600000 → sweepStore s now id = none) ∧
    (∀ e, s id = some e → now - e.lastAccess ≤ 3600000 → sweepStore s now id = some e) := by
  refine ⟨?_, ?_, ?_, ?_⟩
  · intro h
    simp [getConversation, h, storeSet]
  · intro e h
    simp [getConversation, h, storeSet]
  · intro e h hgt
    simp [sweepStore, h, hgt]
  · intro e h hle
    simp only [sweepStore, h]
    rw [if_neg (by omega)]

/-- A concrete store for the session-lifecycle witness: one stale session and one recent
session. -/
def witnessStore : ConversationStore :=
  fun id =>
    if id = "idle" then some (emptyEntry 0)
    else if id = "fresh" then some (emptyEntry 3600000) else none

/-- Witness for claim C9: a fresh id creates an empty session, an access refreshes the
stamp, the sweep evicts the stale session and keeps the recent one. -/
theorem session_store_lifecycle_witness :
    (getConversation witnessStore 5000000 "nuevo").1 = emptyEntry 5000000 ∧
    (getConversation witnessStore 5000000 "fresh").1 =
      { emptyEntry 3600000 with lastAccess := 5000000 } ∧
    sweepStore witnessStore 5000000 "idle" = none ∧
    sweepStore witnessStore 5000000 "fresh" = some (emptyEntry 3600000) :=
  ⟨((session_store_lifecycle witnessStore 5000000 "nuevo").1 (by decide)).1,
    ((session_store_lifecycle witnessStore 5000000 "fresh").2.1 (emptyEntry 3600000)
      (by decide)).1,
    (session_store_lifecycle witnessStore 5000000 "idle").2.2.1 (emptyEntry 0)
      (by decide) (by decide),
    (session_store_lifecycle witnessStore 5000000 "fresh").2.2.2 (emptyEntry 3600000)
      (by decide) (by decide)⟩

/-- Claim C6: a turn whose trimmed input matches the greeting pattern resets the active
flow and sub-flow, emits exactly the fixed welcome with classification undecided and an
empty tool list, and performs no classifier call, no dispatch, and no ticket activity. -/
theorem greeting_resets_and_welcomes (env : WorkflowEnv) (input : WorkflowInput)
    (conv0 : ConversationEntry)
    (hg : matchesGreeting (jsTrim input.input_as_text) = true) :
    (runWorkflowOnEntry env input conv0).1 =
      { output_text := some SANTIAGO_WELCOME_MESSAGE, classification := some .no_se,
        ticketFolio := none, error := none, toolsUsed := some [],
        contactCard := none } ∧
    (runWorkflowOnEntry env input conv0).2.1.activeFlow = none ∧
    (runWorkflowOnEntry env input conv0).2.1.activeCeaSubType = none ∧
    (runWorkflowOnEntry env input conv0).2.2 = noEvents := by
  unfold runWorkflowOnEntry
  simp [hg]

def sampleTicketBase : TicketEnvBase :=
  { date := ⟨2026, 1, 6⟩, nowMs := 1767744003456, storeFolios := [], folioQueryOk := true,
    contactNameById := fun _ => none, contactByContract := fun _ => none,
    insertOk := true, insertId := 7, accountId := 1 }

/-- A concrete oracle environment: the classifier yields nothing and every responder
throws; a greeting turn must not consult either. -/
def silentEnv : WorkflowEnv :=
  { classifierResult := none, agentResult := fun _ => .error "collaborator down",
    systemContext := "[Fecha: martes, 6 de enero de 2026, Hora: 10:00 (hora de Queretaro)]",
    ticketBase := sampleTicketBase }

def greetInput : WorkflowInput :=
  { input_as_text := "Hola", conversationId := none, contactId := none,
    metaChatwootConversationId := none }

/-- Witness for claim C6 on the concrete input Hola. -/
theorem greeting_resets_and_welcomes_witness :
    (runWorkflowOnEntry silentEnv greetInput (emptyEntry 0)).1 =
      { output_text := some SANTIAGO_WELCOME_MESSAGE, classification := some .no_se,
        ticketFolio := none, error := none, toolsUsed := some [],
        contactCard := none } ∧
    (runWorkflowOnEntry silentEnv greetInput (emptyEntry 0)).2.1.activeFlow = none ∧
    (runWorkflowOnEntry silentEnv greetInput (emptyEntry 0)).2.1.activeCeaSubType = none ∧
    (runWorkflowOnEntry silentEnv greetInput (emptyEntry 0)).2.2 = noEvents :=
  greeting_resets_and_welcomes silentEnv greetInput (emptyEntry 0) (by decide)

-- ============================================
-- Claims C7, C5 and C4
-- ============================================

/-- Claim C7: in a turn with a pinned active flow whose input is neither a greeting nor
an explicit switch, the turn routes on the stored classification and stored sub-type, the
classification collaborator is not invoked, and a six-to-ten digit token in the input
refreshes the sticky contract identifier, which is otherwise unchanged. -/
theorem active_flow_sticky (env : WorkflowEnv) (input : WorkflowInput)
    (conv0 : ConversationEntry) (c : Classification)
    (hg : matchesGreeting (jsTrim input.input_as_text) = false)
    (hsw : matchesExplicitSwitch (jsTrim input.input_as_text) = false)
    (hflow : conv0.activeFlow = some c) :
    (runWorkflowOnEntry env input conv0).2.2.classifierCalled = false ∧
    (runWorkflowOnEntry env input conv0).2.2.routed = some (c, conv0.activeCeaSubType) ∧
    (runWorkflowOnEntry env input conv0).2.1.classification = some c ∧
    (runWorkflowOnEntry env input conv0).2.1.contractNumber =
      (match firstContractToken (jsTrim input.input_as_text) with
       | some tk => some tk
       | none => conv0.contractNumber) := by
  obtain ⟨hp1, hp2, hp3, hp4⟩ := applyChatwootIds_preserves input conv0
  unfold runWorkflowOnEntry
  generalize hA : applyChatwootIds input conv0 = A at hp1 hp2 hp3 hp4
  obtain ⟨Ahist, Alast, Acn, Acl, Aaf, Asub, Accv, Acct, Acib⟩ := A
  have e1 : Aaf = some c := hp1.trans hflow
  subst e1
  have e2 : Asub = conv0.activeCeaSubType := hp2
  subst e2
  have e3 : Acn = conv0.contractNumber := hp3
  subst e3
  simp only [hg, Bool.false_eq_true, if_false, hsw]
  cases hct : firstContractToken (jsTrim input.input_as_text) with
  | some tk =>
      simp only [hct]
      exact ⟨(runTurnBody_fields _ _ _ _ _ _ _ _).1,
        (runTurnBody_fields _ _ _ _ _ _ _ _).2.1,
        (runTurnBody_fields _ _ _ _ _ _ _ _).2.2.1,
        (runTurnBody_fields _ _ _ _ _ _ _ _).2.2.2⟩
  | none =>
      simp only [hct]
      exact ⟨(runTurnBody_fields _ _ _ _ _ _ _ _).1,
        (runTurnBody_fields _ _ _ _ _ _ _ _).2.1,
        (runTurnBody_fields _ _ _ _ _ _ _ _).2.2.1,
        (runTurnBody_fields _ _ _ _ _ _ _ _).2.2.2⟩

def stickyEnv : WorkflowEnv :=
  { classifierResult := none, agentResult := fun _ => .ok ⟨"¿En qué parte?", [], []⟩,
    systemContext := "[Fecha: martes, 6 de enero de 2026]",
    ticketBase := sampleTicketBase }

def stickyInput : WorkflowInput :=
  { input_as_text := "mi contrato es 523160", conversationId := none, contactId := none,
    metaChatwootConversationId := none }

def stickyEntry : ConversationEntry :=
  { emptyEntry 0 with activeFlow := some .tramites_vehiculares }

/-- Witness for claim C7: a pinned flow, an ordinary follow-up message carrying a
six-digit token; the classifier stays silent and the token sticks. -/
theorem active_flow_sticky_witness :
    (runWorkflowOnEntry stickyEnv stickyInput stickyEntry).2.2.classifierCalled = false ∧
    (runWorkflowOnEntry stickyEnv stickyInput stickyEntry).2.2.routed =
      some (.tramites_vehiculares, stickyEntry.activeCeaSubType) ∧
    (runWorkflowOnEntry stickyEnv stickyInput stickyEntry).2.1.classification =
      some .tramites_vehiculares ∧
    (runWorkflowOnEntry stickyEnv stickyInput stickyEntry).2.1.contractNumber =
      (match firstContractToken (jsTrim stickyInput.input_as_text) with
       | some tk => some tk
       | none => stickyEntry.contractNumber) :=
  active_flow_sticky stickyEnv stickyInput stickyEntry .tramites_vehiculares
    (by decide) (by decide) (by decide)

theorem runTurnBody_hablar_asesor (env : WorkflowEnv) (input : WorkflowInput)
    (ctx : ChatwootContext) (um : HistoryItem) (conv : ConversationEntry)
    (sub : Option CeaSubClassification) (cc : Bool) :
    ((runTurnBody env input ctx um conv .hablar_asesor sub cc).2.2.ticketCalls.map
        (fun t => (t.service_type, t.priority))) =
      [(TicketType.urgente, some TicketPriority.urgente)] ∧
    (runTurnBody env input ctx um conv .hablar_asesor sub cc).2.1.activeFlow = none ∧
    (runTurnBody env input ctx um conv .hablar_asesor sub cc).2.1.activeCeaSubType =
      none := by
  unfold runTurnBody turnBranch finishTurn
  refine ⟨rfl, ?_, ?_⟩
  · simp [apply_ite ConversationEntry.activeFlow]
  · simp [apply_ite ConversationEntry.activeCeaSubType]

/-- Claim C5: in every turn whose classification resolves to speak-to-a-human — whether
by continuing a pinned flow or by fresh classification — the workflow calls the ticket
service within that same turn with service type urgente and urgent priority, and the
session ends the turn with no active flow and no sub-type. -/
theorem hablar_asesor_urgent_ticket (env : WorkflowEnv) (input : WorkflowInput)
    (conv0 : ConversationEntry)
    (hg : matchesGreeting (jsTrim input.input_as_text) = false)
    (hroute :
      (conv0.activeFlow = some .hablar_asesor ∧
        matchesExplicitSwitch (jsTrim input.input_as_text) = false) ∨
      ((conv0.activeFlow = none ∨
          matchesExplicitSwitch (jsTrim input.input_as_text) = true) ∧
        env.classifierResult.map ClassifierOutput.classification =
          some .hablar_asesor)) :
    ((runWorkflowOnEntry env input conv0).2.2.ticketCalls.map
        (fun t => (t.service_type, t.priority))) =
      [(TicketType.urgente, some TicketPriority.urgente)] ∧
    (runWorkflowOnEntry env input conv0).2.1.activeFlow = none ∧
    (runWorkflowOnEntry env input conv0).2.1.activeCeaSubType = none := by
  obtain ⟨hp1, hp2, hp3, _⟩ := applyChatwootIds_preserves input conv0
  unfold runWorkflowOnEntry
  simp only [hg, Bool.false_eq_true, if_false]
  rcases hroute with ⟨hflow, hsw⟩ | ⟨hcase, hcls⟩
  · have hflow1 : (applyChatwootIds input conv0).activeFlow = some .hablar_asesor := by
      rw [hp1, hflow]
    simp only [hflow1, hsw]
    cases hct : firstContractToken (jsTrim input.input_as_text) <;>
      simp only [hct] <;>
      exact runTurnBody_hablar_asesor env input _ _ _ _ false
  · cases hr : env.classifierResult with
    | none => rw [hr] at hcls; simp at hcls
    | some r =>
        have hrc : r.classification = .hablar_asesor := by
          rw [hr] at hcls
          simpa using hcls
        rcases hcase with hnone | hswt
        · have h1 : (applyChatwootIds input conv0).activeFlow = none := by
            rw [hp1, hnone]
          simp only [h1, hr]
          cases hec : truthyStr r.extractedContract <;>
            simp only [hec] <;>
            (rw [hrc]; exact runTurnBody_hablar_asesor env input _ _ _ _ true)
        · cases haf : (applyChatwootIds input conv0).activeFlow <;>
            simp only [hswt, haf, hr] <;>
            cases hec : truthyStr r.extractedContract <;>
            simp only [hec] <;>
            (rw [hrc]; exact runTurnBody_hablar_asesor env input _ _ _ _ true)

def hablarEnv : WorkflowEnv :=
  { classifierResult := some ⟨.hablar_asesor, none, none⟩,
    agentResult := fun _ => .error "unused",
    systemContext := "[Fecha: martes, 6 de enero de 2026]",
    ticketBase := sampleTicketBase }

def hablarInput : WorkflowInput :=
  { input_as_text := "necesito un asesor", conversationId := none, contactId := none,
    metaChatwootConversationId := none }

/-- Witness for claim C5: a fresh conversation classified as speak-to-a-human yields
exactly one urgent ticket call and a cleared flow. -/
theorem hablar_asesor_urgent_ticket_witness :
    ((runWorkflowOnEntry hablarEnv hablarInput (emptyEntry 0)).2.2.ticketCalls.map
        (fun t => (t.service_type, t.priority))) =
      [(TicketType.urgente, some TicketPriority.urgente)] ∧
    (runWorkflowOnEntry hablarEnv hablarInput (emptyEntry 0)).2.1.activeFlow = none ∧
    (runWorkflowOnEntry hablarEnv hablarInput (emptyEntry 0)).2.1.activeCeaSubType =
      none :=
  hablar_asesor_urgent_ticket hablarEnv hablarInput (emptyEntry 0) (by decide)
    (Or.inr ⟨Or.inl (by decide), by decide⟩)

theorem runTurnBody_dispatch_keeps_flow (env : WorkflowEnv) (input : WorkflowInput)
    (ctx : ChatwootContext) (um : HistoryItem) (conv : ConversationEntry)
    (c : Classification) (sub : Option CeaSubClassification) (cc : Bool)
    (ar : AgentResult)
    (hne1 : c ≠ .hablar_asesor) (hne2 : c ≠ .agua_cea) (hne3 : c ≠ .no_se)
    (har : env.agentResult c = .ok ar)
    (hnt : (ar.toolsUsed.contains "create_ticket" ||
        ar.toolsUsed.contains "create_general_ticket") = false) :
    (runTurnBody env input ctx um conv c sub cc).2.1.activeFlow = conv.activeFlow ∧
    (runTurnBody env input ctx um conv c sub cc).2.1.activeCeaSubType =
      conv.activeCeaSubType := by
  have hbranch : ∀ cv : ConversationEntry,
      turnBranch env input ctx um cv c = dispatchBranch env um cv c := by
    intro cv
    cases c <;>
      first
        | rfl
        | (exact absurd rfl hne1)
        | (exact absurd rfl hne2)
        | (exact absurd rfl hne3)
  simp only [runTurnBody, hbranch, dispatchBranch, har, finishTurn, hnt,
    Bool.false_eq_true, if_false]
  exact ⟨trivial, trivial⟩

/-- Claim C4 (corrected, amended form): the workflow stores the sub-type returned by the
classification collaborator verbatim, with no validation against the classification:
starting without a pinned flow, with a non-greeting input and a collaborator answer
pairing any sub-type with an ordinary dispatched classification whose responder uses no
ticket tool, the turn ends with the flow pinned to that classification and the stored
sub-type equal to the returned one — whether or not the classification is
utility-billing. -/
theorem subtype_stored_unvalidated (env : WorkflowEnv) (input : WorkflowInput)
    (conv0 : ConversationEntry) (r : ClassifierOutput) (ar : AgentResult)
    (hg : matchesGreeting (jsTrim input.input_as_text) = false)
    (hflow : conv0.activeFlow = none)
    (hcls : env.classifierResult = some r)
    (hne1 : r.classification ≠ .hablar_asesor)
    (hne2 : r.classification ≠ .agua_cea)
    (hne3 : r.classification ≠ .no_se)
    (har : env.agentResult r.classification = .ok ar)
    (hnt : (ar.toolsUsed.contains "create_ticket" ||
        ar.toolsUsed.contains "create_general_ticket") = false) :
    (runWorkflowOnEntry env input conv0).2.1.activeCeaSubType = r.ceaSubType ∧
    (runWorkflowOnEntry env input conv0).2.1.activeFlow = some r.classification := by
  obtain ⟨hp1, _, _, _⟩ := applyChatwootIds_preserves input conv0
  have h1 : (applyChatwootIds input conv0).activeFlow = none := by rw [hp1, hflow]
  unfold runWorkflowOnEntry
  simp only [hg, Bool.false_eq_true, if_false, h1, hcls]
  cases hec : truthyStr r.extractedContract with
  | some tk =>
      simp only [hec]
      obtain ⟨k1, k2⟩ := runTurnBody_dispatch_keeps_flow env input
        { conversationId := effectiveChatwootConversationId input,
          contactId := input.contactId, inboxId := none }
        ⟨.user, env.systemContext ++ "\n" ++ input.input_as_text⟩
        { { applyChatwootIds input conv0 with contractNumber := some tk } with
            activeFlow := some r.classification, activeCeaSubType := r.ceaSubType }
        r.classification r.ceaSubType true ar hne1 hne2 hne3 har hnt
      exact ⟨by rw [k2], by rw [k1]⟩
  | none =>
      simp only [hec]
      obtain ⟨k1, k2⟩ := runTurnBody_dispatch_keeps_flow env input
        { conversationId := effectiveChatwootConversationId input,
          contactId := input.contactId, inboxId := none }
        ⟨.user, env.systemContext ++ "\n" ++ input.input_as_text⟩
        { applyChatwootIds input conv0 with
            activeFlow := some r.classification, activeCeaSubType := r.ceaSubType }
        r.classification r.ceaSubType true ar hne1 hne2 hne3 har hnt
      exact ⟨by rw [k2], by rw [k1]⟩

def c4Env : WorkflowEnv :=
  { classifierResult := some ⟨.transporte_ameq, none, some .fuga⟩,
    agentResult := fun _ => .ok ⟨"¿Sobre qué ruta necesitas información?", [], []⟩,
    systemContext := "[Fecha: martes, 6 de enero de 2026]",
    ticketBase := sampleTicketBase }

def c4Input : WorkflowInput :=
  { input_as_text := "informacion de rutas", conversationId := none, contactId := none,
    metaChatwootConversationId := none }

/-- Claim C4 counterexample: the classification collaborator pairs the utility sub-type
fuga with the non-utility classification transporte_ameq; the workflow stores both
without validation, so after the turn the session carries a sub-type while its flow is
not utility-billing — the claimed invariant and the claimed validation fail. -/
theorem subtype_validation_counterexample :
    (runWorkflowOnEntry c4Env c4Input (emptyEntry 0)).2.1.activeFlow =
      some .transporte_ameq ∧
    (runWorkflowOnEntry c4Env c4Input (emptyEntry 0)).2.1.activeCeaSubType =
      some .fuga := by
  decide

/-- Witness for the amended claim C4 at the same concrete turn. -/
theorem subtype_stored_unvalidated_witness :
    (runWorkflowOnEntry c4Env c4Input (emptyEntry 0)).2.1.activeCeaSubType =
      some CeaSubClassification.fuga ∧
    (runWorkflowOnEntry c4Env c4Input (emptyEntry 0)).2.1.activeFlow =
      some Classification.transporte_ameq :=
  subtype_stored_unvalidated c4Env c4Input (emptyEntry 0)
    ⟨.transporte_ameq, none, some .fuga⟩
    ⟨"¿Sobre qué ruta necesitas información?", [], []⟩
    (by decide) (by decide) (by decide) (by decide) (by decide) (by decide) rfl (by decide)

end Qrobot
